import Mathlib

/-!
Shallow embedding of two pieces of the hathor-explorer front end:

* the cursor-paginated `Tokens` screen,
  `src/src/components/token/Tokens.js`;
* the dashboard metrics reducer, second file of
  `src/src/screens/TransactionList.js`.

React semantics used for the `Tokens` component: a handler invocation is
modelled as a function of the state snapshot of the render that created
it.  A call to a set function (`setPage`, `setTokens`, ...) contributes a
field of the next state but does not change the values read later in the
same invocation, because the local `const` bindings produced by
`useState` are immutable within a render.  A handler that awaits another
handler created in the same render (the mount effect awaiting
`onSearchButtonClicked`, and `tableHeaderClicked` awaiting
`onSearchButtonClicked`) shares that same snapshot, so the fetch issued
inside `getTokens` always reads the snapshot fields.

Each handler that performs a fetch returns, next to the successor state,
the `FetchRequest` it passed to `tokensApi.getList`, with the fetch
response supplied as an input of the transition.
-/

namespace Explorer

/-- An ElasticSearch search-after cursor: the list of backend sort values
of a row (the `sort` / `searchAfter` arrays of the source). -/
abbrev Cursor := List Int

/-- A token row as returned by the API, before the mapping done in
`getTokens`.  Only the fields the component touches are kept; `sort` is
the backend tie-breaking key used for pagination. -/
structure ApiToken where
  id : String
  nft : Option Bool
  sort : Cursor
  deriving DecidableEq, Repr

/-- A token row after the mapping in `getTokens`
(`{...token, uid: token.id, nft: get(token, 'nft', false)}`). -/
structure Token where
  id : String
  uid : String
  nft : Bool
  sort : Cursor
  deriving DecidableEq, Repr

/-- The per-row mapping applied in `getTokens` (Tokens.js lines 86-90). -/
def mapApiToken (t : ApiToken) : Token :=
  { id := t.id, uid := t.id, nft := t.nft.getD false, sort := t.sort }

/-- The `data` payload of a `tokensApi.getList` response. -/
structure ApiData where
  hits : List ApiToken
  has_next : Bool
  deriving DecidableEq, Repr

/-- A `tokensApi.getList` response; `error` and `data` are read with
lodash `get` and a default, so both are optional. -/
structure TokensRequest where
  error : Option Bool
  data : Option ApiData
  deriving DecidableEq, Repr

/-- `get(tokensRequest, 'data', { hits: [], has_next: false })`. -/
def responseData (resp : TokensRequest) : ApiData :=
  resp.data.getD { hits := [], has_next := false }

/-- The mapped hits of a response, as `getTokens` returns them. -/
def responseHits (resp : TokensRequest) : List Token :=
  (responseData resp).hits.map mapApiToken

/-- One element of the `pageSearchAfter` state array:
`{ page, searchAfter }`. -/
structure PageEntry where
  page : Int
  searchAfter : Cursor
  deriving DecidableEq, Repr

/-- The argument tuple of a `tokensApi.getList` call
(`getList(searchText, sortBy, order, searchAfter)`). -/
structure FetchRequest where
  searchText : String
  sortBy : String
  order : String
  searchAfter : Cursor
  deriving DecidableEq, Repr

/-- The parameter triple pushed into the URL by `updateURL`. -/
structure UrlParams where
  searchText : String
  sortBy : String
  order : String
  deriving DecidableEq, Repr

/-- The `useState` fields of the `Tokens` component (Tokens.js lines
24-35). -/
structure TokensState where
  tokens : List Token
  hasAfter : Bool
  hasBefore : Bool
  searchText : String
  sortBy : String
  order : String
  page : Int
  pageSearchAfter : List PageEntry
  isLoading : Bool
  isSearchLoading : Bool
  calculatingPage : Bool
  error : Bool
  deriving DecidableEq, Repr

/-- The `useState` initial values of the component. -/
def initialTokensState : TokensState :=
  { tokens := []
    hasAfter := false
    hasBefore := false
    searchText := ""
    sortBy := "transaction_timestamp"
    order := "desc"
    page := 1
    pageSearchAfter := []
    isLoading := false
    isSearchLoading := false
    calculatingPage := false
    error := false }

/-- lodash `find(pageSearchAfter, { page: p })`: first entry whose
`page` field equals `p`. -/
def lodashFind (table : List PageEntry) (p : Int) : Option PageEntry :=
  table.find? fun e => e.page == p

/-- `get(last(tokens), 'sort', [])`: the `sort` cursor of the last row,
or the empty cursor when there is no row. -/
def lastSortOf (rows : List Token) : Cursor :=
  ((rows.getLast?).map Token.sort).getD []

/-- JavaScript `a || b` for an optional string `a`: `undefined`, `null`
and the empty string are falsy and select `b`. -/
def jsOrString (a : Option String) (b : String) : String :=
  match a with
  | none => b
  | some s => if s = "" then b else s

/-- The state updates `onSearchButtonClicked` performs before awaiting
the fetch: only `setIsSearchLoading(true)` (Tokens.js line 98).  In
particular the `error` flag is not touched here. -/
def searchStart (s : TokensState) : TokensState :=
  { s with isSearchLoading := true }

/-- The `tokensApi.getList` call made by `getTokens([])` for a search:
it reads the snapshot fields and the empty cursor. -/
def searchFetchRequest (s : TokensState) : FetchRequest :=
  { searchText := s.searchText, sortBy := s.sortBy, order := s.order, searchAfter := [] }

/-- The state updates applied once the search fetch resolves:
`setError` inside `getTokens` (line 83) followed by the block at
Tokens.js lines 102-107. -/
def applySearchResult (s : TokensState) (resp : TokensRequest) : TokensState :=
  { s with
    isSearchLoading := false
    error := resp.error.getD false
    page := 1
    tokens := responseHits resp
    hasAfter := (responseData resp).has_next
    hasBefore := false
    pageSearchAfter := [{ page := 1, searchAfter := [] }] }

/-- Everything an `onSearchButtonClicked` invocation produces. -/
structure SearchResult where
  state : TokensState
  request : FetchRequest
  url : UrlParams
  deriving DecidableEq, Repr

/-- `onSearchButtonClicked(newSearchText, newSortBy, newOrder)`
(Tokens.js lines 97-111), run to completion on snapshot `s` with fetch
response `resp`.  The URL receives `newSearchText || searchText` etc.;
the fetch itself reads the snapshot fields. -/
def onSearchButtonClicked (s : TokensState)
    (newSearchText newSortBy newOrder : Option String) (resp : TokensRequest) : SearchResult :=
  { state := applySearchResult (searchStart s) resp
    request := searchFetchRequest s
    url :=
      { searchText := jsOrString newSearchText s.searchText
        sortBy := jsOrString newSortBy s.sortBy
        order := jsOrString newOrder s.order } }

/-- `onSearchTextKeyUp` (Tokens.js lines 127-131): an Enter key press is
treated as a search button click with no arguments. -/
def onSearchTextKeyUp (s : TokensState) (key : String) (resp : TokensRequest) :
    Option SearchResult :=
  if key = "Enter" then some (onSearchButtonClicked s none none none resp) else none

/-- Everything a next or previous page click produces. -/
structure PageTurnResult where
  state : TokensState
  request : FetchRequest
  deriving DecidableEq, Repr

/-- `nextPageClicked` (Tokens.js lines 151-178), run to completion on
snapshot `s` with fetch response `resp`.  The cursor for `page + 1` is
looked up in `pageSearchAfter`; when the looked-up value is the empty
array (entry missing, or an entry holding the empty cursor) a new cursor
is derived from the `sort` of the last displayed row and appended. -/
def nextPageClicked (s : TokensState) (resp : TokensRequest) : PageTurnResult :=
  let nextPage := s.page + 1
  let cached := ((lodashFind s.pageSearchAfter nextPage).map PageEntry.searchAfter).getD []
  let lastCurrentTokenSort := lastSortOf s.tokens
  let searchAfter := if cached = [] then lastCurrentTokenSort else cached
  let newTable :=
    if cached = [] then
      s.pageSearchAfter ++ [{ page := nextPage, searchAfter := lastCurrentTokenSort }]
    else s.pageSearchAfter
  { state :=
      { s with
        calculatingPage := false
        error := resp.error.getD false
        tokens := responseHits resp
        hasAfter := (responseData resp).has_next
        hasBefore := true
        page := nextPage
        pageSearchAfter := newTable }
    request :=
      { searchText := s.searchText, sortBy := s.sortBy, order := s.order
        searchAfter := searchAfter } }

/-- `previousPageClicked` (Tokens.js lines 185-197), run to completion
on snapshot `s` with fetch response `resp`. -/
def previousPageClicked (s : TokensState) (resp : TokensRequest) : PageTurnResult :=
  let previousPage := s.page - 1
  let searchAfter :=
    ((lodashFind s.pageSearchAfter previousPage).map PageEntry.searchAfter).getD []
  { state :=
      { s with
        calculatingPage := false
        error := resp.error.getD false
        tokens := responseHits resp
        hasAfter := true
        hasBefore := decide (previousPage ≠ 1)
        page := previousPage }
    request :=
      { searchText := s.searchText, sortBy := s.sortBy, order := s.order
        searchAfter := searchAfter } }

/-- `tableHeaderClicked` (Tokens.js lines 205-216), run to completion on
snapshot `s`.  It computes the new order, updates `sortBy` and `order`,
then awaits `onSearchButtonClicked(null, headerName, newOrder)`; that
call is the closure of the current render, so the fetch inside reads the
snapshot `s`. -/
def tableHeaderClicked (s : TokensState) (headerName : String) (resp : TokensRequest) :
    SearchResult :=
  let newOrder :=
    if headerName = s.sortBy then (if s.order = "asc" then "desc" else "asc") else "asc"
  let s1 := if headerName = s.sortBy then s else { s with sortBy := headerName }
  let s2 := { s1 with order := newOrder }
  { state := applySearchResult (searchStart s2) resp
    request := searchFetchRequest s
    url :=
      { searchText := jsOrString none s.searchText
        sortBy := jsOrString (some headerName) s.sortBy
        order := jsOrString (some newOrder) s.order } }

/-- The optional query parameters returned by
`pagination.current.obtainQueryParams()`. -/
structure QueryParams where
  searchText : Option String
  sortBy : Option String
  order : Option String
  deriving DecidableEq, Repr

/-- Everything the mount effect produces. -/
structure InitResult where
  state : TokensState
  request : FetchRequest
  url : UrlParams
  deriving DecidableEq, Repr

/-- `executeInitialQuery` of the mount effect (Tokens.js lines 55-70),
run on snapshot `s` (the first render, so `s` carries the `useState`
defaults).  It reads the URL query parameters with the snapshot values
as defaults, stores them, and awaits
`onSearchButtonClicked(newSearchText, newSortBy, newOrder)` - a closure
of the same render, whose fetch therefore reads the snapshot fields of
`s`, not the freshly stored values. -/
def executeInitialQuery (s : TokensState) (queryParams : QueryParams)
    (resp : TokensRequest) : InitResult :=
  let newSearchText := queryParams.searchText.getD s.searchText
  let newSortBy := queryParams.sortBy.getD s.sortBy
  let newOrder := queryParams.order.getD s.order
  let s1 :=
    { s with searchText := newSearchText, sortBy := newSortBy, order := newOrder
             isLoading := false }
  { state := applySearchResult (searchStart s1) resp
    request := searchFetchRequest s
    url :=
      { searchText := jsOrString (some newSearchText) s.searchText
        sortBy := jsOrString (some newSortBy) s.sortBy
        order := jsOrString (some newOrder) s.order } }

/-- The mount effect (Tokens.js lines 48-71): aborted before any fetch
when `maintenanceMode` is set; otherwise it runs `executeInitialQuery`.
The second component lists the `tokensApi.getList` calls issued. -/
def mountEffect (maintenanceMode : Bool) (s : TokensState) (queryParams : QueryParams)
    (resp : TokensRequest) : TokensState × List FetchRequest :=
  if maintenanceMode then (s, [])
  else
    let r := executeInitialQuery s queryParams resp
    (r.state, [r.request])

/-- The static notice shown in maintenance mode. -/
def maintenanceMessage : String :=
  "This feature is under maintenance. Please try again after some time"

/-- The message shown when a fetch reported an error. -/
def errorLoadingMessage : String :=
  "Error loading tokens. Please try again."

/-- What `renderSearchField` (Tokens.js lines 218-235) produces: either
the static maintenance notice, or the interactive search field. -/
inductive SearchFieldView where
  | maintenanceNotice (message : String)
  | searchField (searchText : String) (isSearchLoading : Bool) (loading : Bool)
  deriving DecidableEq, Repr

def renderSearchField (maintenanceMode : Bool) (s : TokensState) : SearchFieldView :=
  if maintenanceMode then SearchFieldView.maintenanceNotice maintenanceMessage
  else SearchFieldView.searchField s.searchText s.isSearchLoading s.isLoading

/-- What `renderTokensTable` (Tokens.js lines 237-260) produces:
nothing in maintenance mode, the error indicator when the error flag is
set, and the interactive results table otherwise. -/
inductive TokensTableView where
  | nullView
  | errorIndicator (message : String)
  | table (data : List Token) (hasBefore hasAfter : Bool) (loading : Bool)
      (sortBy order : String) (calculatingPage : Bool)
  deriving DecidableEq, Repr

def renderTokensTable (maintenanceMode : Bool) (s : TokensState) : TokensTableView :=
  if maintenanceMode then TokensTableView.nullView
  else if s.error then TokensTableView.errorIndicator errorLoadingMessage
  else
    TokensTableView.table s.tokens s.hasBefore s.hasAfter s.isLoading s.sortBy s.order
      s.calculatingPage

/-- One next-page click, each fetch completing before the next click. -/
def stepNext (s : TokensState) (resp : TokensRequest) : TokensState :=
  (nextPageClicked s resp).state

/-- A sequence of next-page clicks with their fetch responses. -/
def runNexts (s : TokensState) (resps : List TokensRequest) : TokensState :=
  resps.foldl stepNext s

/-- The cursor-table segment derived from consecutive result pages:
`buildEntries k [r₀, r₁, ...]` holds the entry for page `k` derived from
rows `r₀`, the entry for page `k + 1` derived from rows `r₁`, and so
on. -/
def buildEntries : Int → List (List Token) → List PageEntry
  | _, [] => []
  | start, rows :: rest =>
    { page := start, searchAfter := lastSortOf rows } :: buildEntries (start + 1) rest

/-- The full cursor table after visiting the pages of `prev` and moving
one page beyond each of them: page 1 maps to the empty cursor, page
`i + 2` to the cursor derived from `prev[i]`. -/
def buildTable (prev : List (List Token)) : List PageEntry :=
  { page := 1, searchAfter := [] } :: buildEntries 2 prev

/-- The result rows displayed for page `n` of a forward run whose pages
are listed in `pages` (head = page 1). -/
def rowsForPage (pages : List (List Token)) (n : Int) : List Token :=
  if 1 ≤ n then pages.getD (n - 1).toNat [] else []

/-- Splits a forward run into the fully visited pages and the final
current page: given the rows of the current page and the responses of
the remaining next clicks, returns the pages walked past and the rows of
the page the run ends on. -/
def pagesAfter (cur : List Token) : List TokensRequest → List (List Token) × List Token
  | [] => ([], cur)
  | r :: rs =>
    let rest := pagesAfter (responseHits r) rs
    (cur :: rest.1, rest.2)

/-- Invariant of a forward (search-then-next-only) run: `prev` lists the
pages already walked past, `cur` the rows of the current page. -/
def searchNextInv (prev : List (List Token)) (cur : List Token) (s : TokensState) : Prop :=
  s.page = (prev.length : Int) + 1 ∧ s.tokens = cur ∧ s.pageSearchAfter = buildTable prev

/-!  The dashboard metrics reducer (`rootReducer` of the second file in
`src/src/screens/TransactionList.js`).  JavaScript numbers are modelled
by rationals; `DASHBOARD_CHART_TIME` is imported from `src/constants`,
which is not part of the excerpt, so the window bound is a parameter.
The reducer mutates the pushed payload object in place when assigning
`txRate`; since for a positive window bound the pushed sample is always
the last element of the window, this is modelled by replacing the last
element. -/

/-- One dashboard metrics sample.  `date` is the epoch value of the
`Date` object built from `time`. -/
structure DashboardSample where
  time : Rat
  transactions : Rat
  txRate : Rat
  date : Rat
  deriving DecidableEq, Repr

structure DashboardState where
  data : List DashboardSample
  deriving DecidableEq, Repr

inductive DashboardAction where
  | dashboard_update (payload : DashboardSample)
  | other
  deriving DecidableEq, Repr

/-- `data.push(action.payload); if (data.length > DASHBOARD_CHART_TIME)
data.shift();` -/
def dashboardWindow (chartTime : Nat) (data : List DashboardSample)
    (payload : DashboardSample) : List DashboardSample :=
  let pushed := data ++ [payload]
  if chartTime < pushed.length then pushed.tail else pushed

/-- The `txRate` computation of the `dashboard_update` branch
(TransactionList.js reducer lines 44-56): zero for a singleton window;
otherwise the sample before the last one is read, the division is
skipped when the time difference is zero, and the rate is clamped at
zero. -/
def dashboardTxRate (window : List DashboardSample) (payload : DashboardSample) : Rat :=
  if window.length = 1 then 0
  else
    match window[window.length - 2]? with
    | none => 0
    | some beforeLastData =>
      let timeDiff := beforeLastData.time - payload.time
      let txDiff := beforeLastData.transactions - payload.transactions
      if timeDiff = 0 then beforeLastData.txRate
      else max 0 (txDiff / timeDiff)

/-- The dashboard reducer. -/
def rootReducer (chartTime : Nat) (state : DashboardState) (action : DashboardAction) :
    DashboardState :=
  match action with
  | DashboardAction.dashboard_update payload0 =>
    let payload := { payload0 with date := payload0.time * 1000 }
    let window := dashboardWindow chartTime state.data payload
    let txRate := dashboardTxRate window payload
    { state with data := window.dropLast ++ [{ payload with txRate := txRate }] }
  | DashboardAction.other => state

/-! Concrete inputs used by the witness and counterexample theorems. -/

def wTokenA : Token := { id := "a", uid := "a", nft := false, sort := [3] }

def wTokenB : Token := { id := "b", uid := "b", nft := false, sort := [7] }

def wRespA : TokensRequest :=
  { error := none, data := some { hits := [{ id := "a", nft := none, sort := [3] }], has_next := true } }

def wRespB : TokensRequest :=
  { error := none, data := some { hits := [{ id := "b", nft := none, sort := [7] }], has_next := false } }

def wRespEmpty : TokensRequest := { error := none, data := none }

def wRespError : TokensRequest := { error := some true, data := none }

def c3state : TokensState :=
  { initialTokensState with
    page := 3
    hasBefore := true
    tokens := [wTokenB]
    pageSearchAfter :=
      [{ page := 1, searchAfter := [] }, { page := 2, searchAfter := [9] },
        { page := 3, searchAfter := [11] }] }

def c4state : TokensState := { initialTokensState with error := true }

def c5state : TokensState :=
  { initialTokensState with
    tokens := [{ id := "t", uid := "t", nft := false, sort := [5] }]
    pageSearchAfter := [{ page := 1, searchAfter := [] }, { page := 2, searchAfter := [] }] }

def c6tokens : List Token := List.replicate 19 wTokenA ++ [wTokenB]

def c6state : TokensState :=
  { initialTokensState with
    hasAfter := true
    tokens := c6tokens
    pageSearchAfter := [{ page := 1, searchAfter := [] }] }

def c7state : TokensState := { initialTokensState with tokens := [wTokenA] }

def c8queryParams : QueryParams :=
  { searchText := some ("nft"), sortBy := some ("name"), order := some ("asc") }

def c10prevSample : DashboardSample :=
  { time := 10, transactions := 5, txRate := 0, date := 0 }

def c10payload : DashboardSample :=
  { time := 12, transactions := 9, txRate := 0, date := 0 }

def c10window : List DashboardSample := [c10prevSample, c10payload]

/-! Helper lemmas about the cursor-table segments built by forward
navigation. -/

theorem mem_buildEntries {e : PageEntry} (l : List (List Token)) (k : Int)
    (h : e ∈ buildEntries k l) :
    ∃ i : Nat, i < l.length ∧ e.page = k + (i : Int) ∧
      e.searchAfter = lastSortOf (l.getD i []) := by
  induction l generalizing k with
  | nil => simp [buildEntries] at h
  | cons rows rest ih =>
    rw [buildEntries] at h
    rcases List.mem_cons.mp h with h1 | h2
    · refine ⟨0, by simp, ?_, ?_⟩
      · rw [h1]; simp
      · rw [h1]; simp [List.getD_cons_zero]
    · obtain ⟨i, hi, hp, hs⟩ := ih (k + 1) h2
      refine ⟨i + 1, by simpa using hi, ?_, ?_⟩
      · rw [hp]; push_cast; ring
      · simpa [List.getD_cons_succ] using hs

theorem buildEntries_append (x : List Token) (l : List (List Token)) (k : Int) :
    buildEntries k (l ++ [x]) =
      buildEntries k l ++ [{ page := k + (l.length : Int), searchAfter := lastSortOf x }] := by
  induction l generalizing k with
  | nil => simp [buildEntries]
  | cons rows rest ih =>
    have harith : k + 1 + (rest.length : Int) = k + ((rest.length + 1 : Nat) : Int) := by
      push_cast; ring
    rw [List.cons_append, buildEntries, ih, harith, buildEntries, List.length_cons,
      List.cons_append]

theorem lodashFind_buildTable_one (prev : List (List Token)) :
    lodashFind (buildTable prev) 1 = some { page := 1, searchAfter := [] } := by
  unfold lodashFind buildTable
  rw [List.find?_cons_of_pos _ (by decide)]

theorem lodashFind_buildTable_none (prev : List (List Token)) (p : Int)
    (h2 : (prev.length : Int) + 2 ≤ p) :
    lodashFind (buildTable prev) p = none := by
  unfold lodashFind buildTable
  rw [List.find?_eq_none]
  intro e he
  rcases List.mem_cons.mp he with h | h
  · rw [h]
    simp only [beq_iff_eq]
    omega
  · obtain ⟨i, hi, hp, _⟩ := mem_buildEntries prev 2 h
    simp only [beq_iff_eq, hp]
    omega

theorem stepNext_inv {prev : List (List Token)} {cur : List Token} {s : TokensState}
    (resp : TokensRequest) (h : searchNextInv prev cur s) :
    searchNextInv (prev ++ [cur]) (responseHits resp) (stepNext s resp) := by
  obtain ⟨hp, ht, htab⟩ := h
  have hfind : lodashFind s.pageSearchAfter (s.page + 1) = none := by
    rw [htab, hp]
    exact lodashFind_buildTable_none prev ((prev.length : Int) + 1 + 1) (by omega)
  refine ⟨?_, rfl, ?_⟩
  · show s.page + 1 = ((prev ++ [cur]).length : Int) + 1
    rw [hp]
    simp only [List.length_append, List.length_singleton]
    push_cast
    ring
  · show (stepNext s resp).pageSearchAfter = buildTable (prev ++ [cur])
    have hres : (stepNext s resp).pageSearchAfter =
        s.pageSearchAfter ++ [{ page := s.page + 1, searchAfter := lastSortOf s.tokens }] := by
      simp [stepNext, nextPageClicked, hfind]
    have hbt : buildTable (prev ++ [cur]) =
        buildTable prev ++
          [{ page := 2 + (prev.length : Int), searchAfter := lastSortOf cur }] := by
      simp only [buildTable, buildEntries_append, List.cons_append]
    have harith : (prev.length : Int) + 1 + 1 = 2 + (prev.length : Int) := by ring
    rw [hres, htab, ht, hp, hbt, harith]

theorem runNexts_inv (resps : List TokensRequest) :
    ∀ (prev : List (List Token)) (cur : List Token) (s : TokensState),
      searchNextInv prev cur s →
      searchNextInv (prev ++ (pagesAfter cur resps).1) (pagesAfter cur resps).2
        (runNexts s resps) := by
  induction resps with
  | nil =>
    intro prev cur s h
    simpa [pagesAfter, runNexts] using h
  | cons r rs ih =>
    intro prev cur s h
    have h2 := ih (prev ++ [cur]) (responseHits r) (stepNext s r) (stepNext_inv r h)
    have heq : runNexts s (r :: rs) = runNexts (stepNext s r) rs := by
      simp [runNexts, List.foldl_cons, stepNext]
    rw [heq]
    simp only [pagesAfter]
    rw [List.append_cons]
    exact h2

theorem pagesAfter_append_last (resps : List TokensRequest) :
    ∀ cur : List Token,
      (pagesAfter cur resps).1 ++ [(pagesAfter cur resps).2] = cur :: resps.map responseHits := by
  induction resps with
  | nil => intro cur; simp [pagesAfter]
  | cons r rs ih =>
    intro cur
    simp [pagesAfter, ih (responseHits r)]

theorem applySearchResult_inv (s : TokensState) (resp : TokensRequest) :
    searchNextInv [] (responseHits resp) (applySearchResult s resp) := by
  refine ⟨by simp [applySearchResult], rfl, ?_⟩
  simp [applySearchResult, buildTable, buildEntries]

theorem getD_append_left {α : Type} (l₁ l₂ : List α) (i : Nat) (d : α)
    (h : i < l₁.length) : (l₁ ++ l₂).getD i d = l₁.getD i d := by
  rw [List.getD_eq_getElem?_getD, List.getD_eq_getElem?_getD, List.getElem?_append_left h]

theorem mem_dropLast_of_getElem {α : Type} (l : List α) (i : Nat) (a : α)
    (h : l[i]? = some a) (hi : i < l.length - 1) : a ∈ l.dropLast := by
  have hd : l.dropLast[i]? = some a := by
    rw [List.dropLast_eq_take, List.getElem?_take, if_pos hi, h]
  exact List.getElem?_mem hd

/-! Helper lemmas about the dashboard reducer. -/

theorem dashboardWindow_dropLast_subset (chartTime : Nat) (data : List DashboardSample)
    (payload : DashboardSample) (hct : 1 ≤ chartTime) :
    ∀ y ∈ (dashboardWindow chartTime data payload).dropLast, y ∈ data := by
  intro y hy
  simp only [dashboardWindow] at hy
  rcases data with _ | ⟨a, t⟩
  · rw [if_neg (by simp only [List.nil_append, List.length_singleton]; omega)] at hy
    simp at hy
  · by_cases hshift : chartTime < ((a :: t) ++ [payload]).length
    · rw [if_pos hshift] at hy
      have htail : ((a :: t) ++ [payload]).tail = t ++ [payload] := rfl
      rw [htail, List.dropLast_concat] at hy
      exact List.mem_cons_of_mem a hy
    · rw [if_neg hshift, List.dropLast_concat] at hy
      exact hy

theorem dashboardWindow_beforeLast_mem (chartTime : Nat) (data : List DashboardSample)
    (payload bl : DashboardSample) (hct : 1 ≤ chartTime)
    (hget : (dashboardWindow chartTime data payload)[(dashboardWindow chartTime data
      payload).length - 2]? = some bl)
    (hlen : (dashboardWindow chartTime data payload).length ≠ 1) :
    bl ∈ data := by
  have hlen2 : 2 ≤ (dashboardWindow chartTime data payload).length := by
    rcases hl : (dashboardWindow chartTime data payload).length with _ | n
    · rw [List.length_eq_zero.mp hl] at hget
      simp at hget
    · rcases n with _ | m
      · exact absurd hl hlen
      · omega
  exact dashboardWindow_dropLast_subset chartTime data payload hct bl
    (mem_dropLast_of_getElem _ _ _ hget (by omega))

theorem dashboardTxRate_nonneg (chartTime : Nat) (data : List DashboardSample)
    (payload : DashboardSample) (hct : 1 ≤ chartTime)
    (hprev : ∀ x ∈ data, 0 ≤ x.txRate) :
    0 ≤ dashboardTxRate (dashboardWindow chartTime data payload) payload := by
  by_cases hlen : (dashboardWindow chartTime data payload).length = 1
  · simp only [dashboardTxRate, if_pos hlen]
    exact le_refl 0
  · simp only [dashboardTxRate, if_neg hlen]
    rcases hget : (dashboardWindow chartTime data payload)[(dashboardWindow chartTime data
      payload).length - 2]? with _ | bl
    · exact le_refl 0
    · have hblmem : bl ∈ data :=
        dashboardWindow_beforeLast_mem chartTime data payload bl hct hget hlen
      by_cases htd : bl.time - payload.time = 0
      · simp only [if_pos htd]
        exact hprev bl hblmem
      · simp only [if_neg htd]
        exact le_max_left 0 _

/-! Claim theorems. -/

/-- C1: in every state reached by a completed search followed by any
sequence of next-page clicks (each fetch completing before the next
click), the cursor table `pageSearchAfter` maps page 1 to the empty
cursor, and every entry for a page `N > 1` holds exactly the derived
`sort` cursor of the result set displayed for page `N - 1`; in
particular, whenever that result set has a last row, the entry holds
exactly that last row `sort` value. -/
theorem c1_cursor_table_invariant (s : TokensState) (resp0 : TokensRequest)
    (resps : List TokensRequest) :
    lodashFind (runNexts (applySearchResult s resp0) resps).pageSearchAfter 1 =
      some { page := 1, searchAfter := [] } ∧
    ∀ e ∈ (runNexts (applySearchResult s resp0) resps).pageSearchAfter, 1 < e.page →
      e.searchAfter =
        lastSortOf (rowsForPage (responseHits resp0 :: resps.map responseHits) (e.page - 1)) ∧
      ∀ t, (rowsForPage (responseHits resp0 :: resps.map responseHits)
          (e.page - 1)).getLast? = some t →
        e.searchAfter = t.sort := by
  obtain ⟨hp, ht, htab⟩ :=
    runNexts_inv resps [] (responseHits resp0) (applySearchResult s resp0)
      (applySearchResult_inv s resp0)
  rw [List.nil_append] at htab
  have hpages :
      (pagesAfter (responseHits resp0) resps).1 ++ [(pagesAfter (responseHits resp0) resps).2] =
        responseHits resp0 :: resps.map responseHits :=
    pagesAfter_append_last resps (responseHits resp0)
  constructor
  · rw [htab]
    exact lodashFind_buildTable_one _
  · intro e he hlt
    rw [htab] at he
    rcases List.mem_cons.mp he with h | h
    · rw [h] at hlt
      exact absurd hlt (by decide)
    · obtain ⟨i, hi, hpage, hsa⟩ :=
        mem_buildEntries (pagesAfter (responseHits resp0) resps).1 2 h
      have hrows :
          rowsForPage (responseHits resp0 :: resps.map responseHits) (e.page - 1) =
            (pagesAfter (responseHits resp0) resps).1.getD i [] := by
        rw [← hpages, rowsForPage, if_pos (by omega)]
        have hidx : (e.page - 1 - 1).toNat = i := by omega
        rw [hidx]
        exact getD_append_left _ _ i [] hi
      refine ⟨by rw [hrows]; exact hsa, ?_⟩
      intro t htl
      rw [hrows] at htl
      rw [hsa, lastSortOf, htl]
      rfl

/-- Witness for C1: after a search returning a row with sort cursor
`[3]` and one next-page click, the cursor-table entry for page 2 holds
the cursor derived from page 1. -/
theorem c1_cursor_table_invariant_witness :
    PageEntry.searchAfter { page := 2, searchAfter := [3] } =
      lastSortOf (rowsForPage (responseHits wRespA :: List.map responseHits [wRespB])
        (PageEntry.page { page := 2, searchAfter := [3] } - 1)) :=
  ((c1_cursor_table_invariant initialTokensState wRespA [wRespB]).2
    { page := 2, searchAfter := [3] } (by decide) (by decide)).1

/-- C2: every user-initiated query change (search-button submit, Enter
key, or sort-header click) resets, once its page-1 fetch completes, the
page to 1, `hasBefore` to false, and the whole cursor table to the
single entry mapping page 1 to the empty cursor, and the fetch it issues
carries the empty cursor. -/
theorem c2_query_change_resets_pagination (s : TokensState)
    (newSearchText newSortBy newOrder : Option String) (headerName : String)
    (resp : TokensRequest) :
    ((onSearchButtonClicked s newSearchText newSortBy newOrder resp).state.page = 1 ∧
      (onSearchButtonClicked s newSearchText newSortBy newOrder resp).state.hasBefore = false ∧
      (onSearchButtonClicked s newSearchText newSortBy newOrder resp).state.pageSearchAfter =
        [{ page := 1, searchAfter := [] }] ∧
      (onSearchButtonClicked s newSearchText newSortBy newOrder resp).request.searchAfter =
        []) ∧
    ((tableHeaderClicked s headerName resp).state.page = 1 ∧
      (tableHeaderClicked s headerName resp).state.hasBefore = false ∧
      (tableHeaderClicked s headerName resp).state.pageSearchAfter =
        [{ page := 1, searchAfter := [] }] ∧
      (tableHeaderClicked s headerName resp).request.searchAfter = []) ∧
    onSearchTextKeyUp s ("Enter") resp = some (onSearchButtonClicked s none none none resp) := by
  refine ⟨⟨rfl, rfl, rfl, rfl⟩, ⟨rfl, rfl, rfl, rfl⟩, ?_⟩
  simp [onSearchTextKeyUp]

/-- C3: a previous-page click from page `P > 1` fetches with the cursor
cached for page `P - 1`, sets `hasAfter` to true regardless of the
`has_next` value of the fetch response, sets `hasBefore` to
`P - 1 != 1`, and sets the page to `P - 1`. -/
theorem c3_previous_page_uses_cached_cursor (s : TokensState) (resp : TokensRequest)
    (e : PageEntry) (hpage : 1 < s.page)
    (hfind : lodashFind s.pageSearchAfter (s.page - 1) = some e) :
    (previousPageClicked s resp).request.searchAfter = e.searchAfter ∧
    (previousPageClicked s resp).state.hasAfter = true ∧
    (previousPageClicked s resp).state.hasBefore = decide (s.page - 1 ≠ 1) ∧
    (previousPageClicked s resp).state.page = s.page - 1 := by
  refine ⟨?_, rfl, rfl, rfl⟩
  simp [previousPageClicked, hfind]

/-- Witness for C3: from page 3 with a cached cursor `[9]` for page 2,
the previous-page fetch uses exactly that cursor, with a response whose
`has_next` is false. -/
theorem c3_previous_page_uses_cached_cursor_witness :
    (previousPageClicked c3state wRespB).request.searchAfter =
      PageEntry.searchAfter { page := 2, searchAfter := [9] } :=
  (c3_previous_page_uses_cached_cursor c3state wRespB { page := 2, searchAfter := [9] }
    (by decide) (by decide)).1

/-- C4 counterexample: the claim says a subsequent user-initiated search
clears the error flag unconditionally before the new fetch starts, but
the only pre-fetch state update of `onSearchButtonClicked` is
`setIsSearchLoading(true)`: starting a search from an errored state
leaves the error flag set, not cleared. -/
theorem c4_error_not_cleared_before_fetch_counterexample :
    (searchStart c4state).error = true ∧ ¬(searchStart c4state).error = false := by
  decide

/-- C4 as amended: any fetch that resolves with `error = true` sets the
error flag and makes the screen render the error indicator instead of
the results table; a subsequent user-initiated search leaves the error
flag unchanged until its own fetch resolves, and then sets it from that
response, so the flag is cleared exactly when the new fetch succeeds. -/
theorem c4_error_flag_follows_fetch_responses (s : TokensState) (resp : TokensRequest)
    (herr : resp.error = some true) :
    (applySearchResult s resp).error = true ∧
    renderTokensTable false (applySearchResult s resp) =
      TokensTableView.errorIndicator errorLoadingMessage ∧
    (nextPageClicked s resp).state.error = true ∧
    renderTokensTable false (nextPageClicked s resp).state =
      TokensTableView.errorIndicator errorLoadingMessage ∧
    (previousPageClicked s resp).state.error = true ∧
    renderTokensTable false (previousPageClicked s resp).state =
      TokensTableView.errorIndicator errorLoadingMessage ∧
    (searchStart s).error = s.error ∧
    ∀ resp2 : TokensRequest,
      (applySearchResult (searchStart s) resp2).error = resp2.error.getD false := by
  refine ⟨?_, ?_, ?_, ?_, ?_, ?_, rfl, fun resp2 => rfl⟩
  all_goals
    simp [applySearchResult, nextPageClicked, previousPageClicked, renderTokensTable, herr]

/-- Witness for C4 (amended): a search whose fetch reports an error
leaves the error flag set. -/
theorem c4_error_flag_follows_fetch_responses_witness :
    (applySearchResult c4state wRespError).error = true :=
  (c4_error_flag_follows_fetch_responses c4state wRespError rfl).1

/-- C5 counterexample: the cursor table has an entry for the target page
2, yet the fetch does not use that entry (which holds the empty cursor)
and the table is not left unchanged - the code branches on emptiness of
the looked-up cursor, not on presence of the entry, re-derives the
cursor from the last displayed row and appends a duplicate entry. -/
theorem c5_cached_empty_cursor_counterexample :
    lodashFind c5state.pageSearchAfter (c5state.page + 1) =
      some { page := 2, searchAfter := [] } ∧
    (nextPageClicked c5state wRespEmpty).request.searchAfter ≠
      PageEntry.searchAfter { page := 2, searchAfter := [] } ∧
    (nextPageClicked c5state wRespEmpty).state.pageSearchAfter ≠
      c5state.pageSearchAfter := by
  decide

/-- C5 as amended: on a next-page click, when the cursor looked up for
the target page is nonempty it is used for the fetch and the table is
left unchanged; when the lookup yields the empty cursor (entry missing,
or an entry holding the empty cursor) a new cursor is derived from the
`sort` of the last displayed row and appended under the target page. -/
theorem c5_next_page_cursor_policy (s : TokensState) (resp : TokensRequest) :
    (∀ e, lodashFind s.pageSearchAfter (s.page + 1) = some e → e.searchAfter ≠ [] →
      (nextPageClicked s resp).request.searchAfter = e.searchAfter ∧
      (nextPageClicked s resp).state.pageSearchAfter = s.pageSearchAfter) ∧
    (((lodashFind s.pageSearchAfter (s.page + 1)).map PageEntry.searchAfter).getD [] = [] →
      (nextPageClicked s resp).request.searchAfter = lastSortOf s.tokens ∧
      (nextPageClicked s resp).state.pageSearchAfter =
        s.pageSearchAfter ++
          [{ page := s.page + 1, searchAfter := lastSortOf s.tokens }]) := by
  constructor
  · intro e hfind hne
    constructor <;> simp [nextPageClicked, hfind, hne]
  · intro hempty
    constructor <;> simp [nextPageClicked, hempty]

/-- Witness for C5 (amended): with no cached entry for the target page,
the fetch cursor is derived from the last displayed row. -/
theorem c5_next_page_cursor_policy_witness :
    (nextPageClicked c6state wRespB).request.searchAfter = lastSortOf c6state.tokens :=
  ((c5_next_page_cursor_policy c6state wRespB).2 (by decide)).1

/-- C6: from page 1 of the default query, where the search fetch
displayed 20 rows and reported `has_next = true`, a next-page click
issues a fetch whose cursor is the `sort` value of the 20th (last)
displayed row, and on completion the page is 2 and `hasBefore` is
true. -/
theorem c6_next_click_scenario (s : TokensState) (resp : TokensRequest)
    (hst : s.searchText = "") (hsb : s.sortBy = "transaction_timestamp")
    (hor : s.order = "desc") (hpage : s.page = 1)
    (htable : s.pageSearchAfter = [{ page := 1, searchAfter := [] }])
    (hlen : s.tokens.length = 20) (hnext : s.hasAfter = true) :
    (∃ t, s.tokens.getLast? = some t ∧
      (nextPageClicked s resp).request =
        { searchText := "", sortBy := "transaction_timestamp", order := "desc"
          searchAfter := t.sort }) ∧
    (nextPageClicked s resp).state.page = 2 ∧
    (nextPageClicked s resp).state.hasBefore = true := by
  have hne : s.tokens ≠ [] := by
    intro h
    rw [h] at hlen
    simp at hlen
  obtain ⟨t, ht⟩ := Option.isSome_iff_exists.mp (List.getLast?_isSome.mpr hne)
  have hfind : lodashFind s.pageSearchAfter (s.page + 1) = none := by
    rw [htable, hpage]
    decide
  refine ⟨⟨t, ht, ?_⟩, ?_, rfl⟩
  · simp [nextPageClicked, hfind, hst, hsb, hor, lastSortOf, ht]
  · show s.page + 1 = 2
    rw [hpage]
    decide

/-- Witness for C6: a concrete 20-row page-1 state; the next click lands
on page 2. -/
theorem c6_next_click_scenario_witness :
    (nextPageClicked c6state wRespB).state.page = 2 :=
  (c6_next_click_scenario c6state wRespB rfl rfl rfl rfl rfl (by decide) rfl).2.1

/-- C7: clicking the active sort column keeps it active and toggles the
order between asc and desc; clicking a different column makes it active
with order asc; in either case a brand-new page-1 search with the empty
cursor is triggered: page reset to 1, `hasBefore` cleared, cursor table
reset to the single page-1 entry. -/
theorem c7_table_header_click (s : TokensState) (headerName : String) (resp : TokensRequest) :
    ((headerName = s.sortBy →
        (tableHeaderClicked s headerName resp).state.sortBy = headerName ∧
        (s.order = "asc" → (tableHeaderClicked s headerName resp).state.order = "desc") ∧
        (s.order = "desc" → (tableHeaderClicked s headerName resp).state.order = "asc")) ∧
      (headerName ≠ s.sortBy →
        (tableHeaderClicked s headerName resp).state.sortBy = headerName ∧
        (tableHeaderClicked s headerName resp).state.order = "asc")) ∧
    (tableHeaderClicked s headerName resp).request.searchAfter = [] ∧
    (tableHeaderClicked s headerName resp).state.page = 1 ∧
    (tableHeaderClicked s headerName resp).state.hasBefore = false ∧
    (tableHeaderClicked s headerName resp).state.pageSearchAfter =
      [{ page := 1, searchAfter := [] }] := by
  refine ⟨⟨?_, ?_⟩, rfl, rfl, rfl, rfl⟩
  · intro h
    refine ⟨?_, ?_, ?_⟩
    · simp [tableHeaderClicked, applySearchResult, searchStart, h]
    · intro horder
      simp [tableHeaderClicked, applySearchResult, searchStart, h, horder]
    · intro horder
      have hne : s.order ≠ "asc" := by
        rw [horder]
        decide
      simp [tableHeaderClicked, applySearchResult, searchStart, h, hne]
  · intro h
    constructor <;> simp [tableHeaderClicked, applySearchResult, searchStart, h]

/-- Witness for C7: clicking the inactive column amount while the sort
is (transaction_timestamp, desc) yields sort state (amount, asc). -/
theorem c7_table_header_click_witness :
    (tableHeaderClicked c7state ("amount") wRespA).state.sortBy = "amount" ∧
    (tableHeaderClicked c7state ("amount") wRespA).state.order = "asc" :=
  (c7_table_header_click c7state ("amount") wRespA).1.2 (by decide)

/-- C8: at the failing input (mount with URL query parameters
`searchText=nft`, `sortBy=name`, `order=asc`), the mount effect stores
the URL values in the state, but the initial page-1 fetch it awaits is
issued with the pre-mount defaults - `onSearchButtonClicked` and
`getTokens` are closures of the first render, so they read the snapshot
fields, not the freshly stored URL values.  The displayed result set is
therefore that of the default query, not reproducible from the URL. -/
theorem c8_mount_fetch_ignores_url_query :
    (executeInitialQuery initialTokensState c8queryParams wRespEmpty).state.searchText =
      "nft" ∧
    (executeInitialQuery initialTokensState c8queryParams wRespEmpty).state.sortBy = "name" ∧
    (executeInitialQuery initialTokensState c8queryParams wRespEmpty).state.order = "asc" ∧
    (executeInitialQuery initialTokensState c8queryParams wRespEmpty).request =
      { searchText := "", sortBy := "transaction_timestamp", order := "desc"
        searchAfter := [] } ∧
    (executeInitialQuery initialTokensState c8queryParams wRespEmpty).request.searchText ≠
      (executeInitialQuery initialTokensState c8queryParams wRespEmpty).state.searchText := by
  refine ⟨rfl, rfl, rfl, rfl, by decide⟩

/-- C9: with the maintenance flag set at mount, the mount effect leaves
the state untouched and issues no `tokensApi.getList` call, the search
field renders only the static maintenance notice, and the results table
renders nothing - so no interactive element that could trigger a later
fetch exists. -/
theorem c9_maintenance_mode_no_fetch (s : TokensState) (queryParams : QueryParams)
    (resp : TokensRequest) :
    mountEffect true s queryParams resp = (s, []) ∧
    renderSearchField true s = SearchFieldView.maintenanceNotice maintenanceMessage ∧
    renderTokensTable true s = TokensTableView.nullView :=
  ⟨rfl, rfl, rfl⟩

/-- C10: a `dashboard_update` action always produces samples with
non-negative `txRate` (given the previous samples had non-negative
`txRate`); when the two most recent samples of the window have equal
`time` values the division is skipped and the previous txRate is
reused, and otherwise the rate is `max 0 (txDiff / timeDiff)` - the
division is evaluated only when `timeDiff` is nonzero. -/
theorem c10_dashboard_txrate_nonneg (chartTime : Nat) (state : DashboardState)
    (payload : DashboardSample) (hct : 1 ≤ chartTime)
    (hprev : ∀ x ∈ state.data, 0 ≤ x.txRate) :
    (∀ y ∈ (rootReducer chartTime state (DashboardAction.dashboard_update payload)).data,
      0 ≤ y.txRate) ∧
    (∀ (window : List DashboardSample) (bl : DashboardSample),
      window[window.length - 2]? = some bl → window.length ≠ 1 →
      (bl.time = payload.time → dashboardTxRate window payload = bl.txRate) ∧
      (bl.time ≠ payload.time →
        dashboardTxRate window payload =
          max 0 ((bl.transactions - payload.transactions) / (bl.time - payload.time)))) := by
  constructor
  · intro y hy
    simp only [rootReducer] at hy
    rcases List.mem_append.mp hy with h | h
    · exact hprev y (dashboardWindow_dropLast_subset chartTime state.data _ hct y h)
    · rw [List.mem_singleton.mp h]
      exact dashboardTxRate_nonneg chartTime state.data _ hct hprev
  · intro window bl hget hlen
    constructor
    · intro hteq
      simp only [dashboardTxRate, if_neg hlen, hget]
      rw [if_pos (sub_eq_zero.mpr hteq)]
    · intro htne
      simp only [dashboardTxRate, if_neg hlen, hget]
      rw [if_neg (sub_ne_zero.mpr htne)]

/-- Witness for C10: on a concrete two-sample window with distinct
times, the new txRate is the clamped quotient of the differences. -/
theorem c10_dashboard_txrate_nonneg_witness :
    dashboardTxRate c10window c10payload =
      max 0
        ((DashboardSample.transactions c10prevSample -
            DashboardSample.transactions c10payload) /
          (DashboardSample.time c10prevSample - DashboardSample.time c10payload)) :=
  ((c10_dashboard_txrate_nonneg 60 { data := [c10prevSample] } c10payload (by decide)
    (by decide)).2 c10window c10prevSample rfl (by decide)).2 (by decide)

end Explorer
